import Mathlib

/-!
Formal model of the xfix enrichment agent (src/xfix/fetcher.py, src/xfix/state.py,
src/xfix/xfix.py, src/xfix/api_client.py, src/xfix/enricher.py).

Python dynamic values that flow through JSON are modelled by the `Json` inductive;
Python ints are modelled as `Int`, Python floats as `ℚ`. Timestamps produced by
`datetime.now()` are passed in explicitly as strings. Network effects are modelled
by explicit `HttpOutcome` oracles, and the set of HTTP requests actually issued is
returned as an explicit trace.
-/

namespace XFix

/-- A JSON value as produced by Python's json module (ints and floats distinct). -/
inductive Json where
  | null
  | bool (b : Bool)
  | int (i : Int)
  | float (q : ℚ)
  | str (s : String)
  | arr (xs : List Json)
  | obj (kvs : List (String × Json))

/-- Lookup of a key in a JSON object's key-value list (Python dict access). -/
def jsonLookup : List (String × Json) → String → Option Json
  | [], _ => none
  | (k, v) :: rest, key => if k = key then some v else jsonLookup rest key

/-- Python truthiness of a JSON value (`if not x`). -/
def Json.truthy : Json → Bool
  | .null => false
  | .bool b => b
  | .int i => i ≠ 0
  | .float q => q ≠ 0
  | .str s => s ≠ ""
  | .arr xs => !xs.isEmpty
  | .obj kvs => !kvs.isEmpty

/-- Python `value == n` for an optional JSON value against an int literal
(absent key compares unequal; bool is an int subclass; floats compare by value). -/
def jsonOptEqInt : Option Json → Int → Bool
  | some (.int i), n => i = n
  | some (.float q), n => q = (n : ℚ)
  | some (.bool b), n => (if b then (1 : Int) else 0) = n
  | _, _ => false

/-- Model of storing a dynamically typed JSON value into a field annotated `int`.
Only `int` values occur in the save format; other cases are a typing model. -/
def jsonAsInt : Json → Int
  | .int i => i
  | .bool b => if b then 1 else 0
  | _ => 0

/-- Model of storing a dynamically typed JSON value into a field annotated `str`. -/
def jsonAsStr : Json → String
  | .str s => s
  | _ => ""

/-- Model of storing an optional JSON value into a field annotated `str | None`
(`None` and JSON null both become `none`). -/
def jsonAsOptStr : Option Json → Option String
  | some (.str s) => some s
  | _ => none

/-- Model of storing a JSON number into a field annotated `float`. -/
def jsonAsRat : Json → ℚ
  | .int i => (i : ℚ)
  | .float q => q
  | .bool b => if b then 1 else 0
  | _ => 0

/-- Python truthiness of an optional string (`not x` on `str | None`). -/
def strTruthy : Option String → Bool
  | none => false
  | some s => s ≠ ""

/-! ## state.py: data model -/

/-- state.py `RetryInfo`: retry information for a single URL. -/
structure RetryInfo where
  attempts : Int
  last_attempt : String
  error_type : String
  bookmark_id : Int
deriving DecidableEq, Repr

/-- state.py `FailedBookmark`: permanently failed bookmark. -/
structure FailedBookmark where
  url : String
  bookmark_id : Int
  attempts : Int
  last_error : String
  failed_at : String
deriving DecidableEq, Repr

/-- state.py `BackoffState`: global Fibonacci backoff state. -/
structure BackoffState where
  current_delay : ℚ
  fibonacci_index : Int
deriving DecidableEq, Repr

/-- state.py `State`: complete application state. The Python `retries` dict is
modelled as an insertion-ordered association list with unique keys. -/
structure State where
  cursor : Option String := none
  last_updated : Option String := none
  retries : List (String × RetryInfo) := []
  failed : List FailedBookmark := []
  backoff : BackoffState := ⟨0, 0⟩
deriving DecidableEq, Repr

/-- The state held by a freshly constructed `StateManager` (`State()`). -/
def emptyState : State := {}

/-- Membership test of a URL among the retry-dict keys (`url in self.state.retries`). -/
def retriesHasKey (s : State) (url : String) : Bool :=
  s.retries.any (fun p => p.1 = url)

/-- Dict read `self.state.retries[url]` as an optional value. -/
def retryFind (s : State) (url : String) : Option RetryInfo :=
  (s.retries.find? (fun p => p.1 = url)).map Prod.snd

/-- Python dict assignment `d[k] = v`: replace in place if present, else append. -/
def dictAssign (m : List (String × RetryInfo)) (k : String) (v : RetryInfo) :
    List (String × RetryInfo) :=
  if m.any (fun p => p.1 = k) then
    m.map (fun p => if p.1 = k then (k, v) else p)
  else m ++ [(k, v)]

/-! ## state.py: StateManager operations -/

/-- state.py `StateManager._mark_failed`: move URL from retries to failed list. -/
def mark_failed (s : State) (url : String) (bookmark_id : Int) (attempts : Int)
    (error_type : String) (timestamp : String) : State :=
  { s with
    retries := s.retries.filter (fun p => p.1 ≠ url),
    failed := s.failed ++ [⟨url, bookmark_id, attempts, error_type, timestamp⟩] }

/-- state.py `StateManager.record_error`: record a fetch/enrichment error.
Returns `(should_retry, new state)`; `now` stands for `datetime.now(...)`. -/
def record_error (s : State) (url : String) (bookmark_id : Int) (error_type : String)
    (max_attempts : Int) (now : String) : Bool × State :=
  if error_type = "not_found" then
    (false, mark_failed s url bookmark_id 1 error_type now)
  else
    let s1 : State :=
      match retryFind s url with
      | some _ =>
        { s with retries := s.retries.map (fun p =>
            if p.1 = url then
              (p.1, { p.2 with attempts := p.2.attempts + 1,
                               last_attempt := now, error_type := error_type })
            else p) }
      | none =>
        { s with retries := s.retries ++ [(url, ⟨1, now, error_type, bookmark_id⟩)] }
    let newAttempts : Int :=
      match retryFind s url with
      | some info => info.attempts + 1
      | none => 1
    if newAttempts ≥ max_attempts then
      (false, mark_failed s1 url bookmark_id max_attempts error_type now)
    else
      (true, s1)

/-- state.py `StateManager.record_success`: remove URL from retries, reset backoff. -/
def record_success (s : State) (url : String) : State :=
  { s with
    retries := s.retries.filter (fun p => p.1 ≠ url),
    backoff := ⟨0, 0⟩ }

/-- state.py `StateManager.is_failed`: membership in the permanent-failure list. -/
def is_failed (s : State) (url : String) : Bool :=
  s.failed.any (fun fb => fb.url = url)

/-- state.py `StateManager.get_retry_count`. -/
def get_retry_count (s : State) (url : String) : Int :=
  match retryFind s url with
  | some info => info.attempts
  | none => 0

/-- state.py `StateManager.clear_cursor`. -/
def clear_cursor (s : State) : State :=
  { s with cursor := none }

/-- state.py `FIBONACCI` sequence used for backoff multipliers (as rationals,
since delays are Python floats). -/
def FIBONACCI : List ℚ := [1, 1, 2, 3, 5, 8, 13, 21, 34, 55, 89, 144]

/-! ## state.py: save / load -/

/-- Encoding of an optional string for the save format (`None` becomes null). -/
def encOptStr : Option String → Json
  | none => .null
  | some s => .str s

/-- The JSON dict built for one retry entry in `StateManager.save`. -/
def encRetryInfo (ri : RetryInfo) : Json :=
  .obj [("attempts", .int ri.attempts),
        ("last_attempt", .str ri.last_attempt),
        ("error_type", .str ri.error_type),
        ("bookmark_id", .int ri.bookmark_id)]

/-- The JSON dict built for one failed bookmark in `StateManager.save`. -/
def encFailedBookmark (fb : FailedBookmark) : Json :=
  .obj [("url", .str fb.url),
        ("bookmark_id", .int fb.bookmark_id),
        ("attempts", .int fb.attempts),
        ("last_error", .str fb.last_error),
        ("failed_at", .str fb.failed_at)]

/-- The `data` dict serialized by `StateManager.save`. -/
def saveData (s : State) : Json :=
  .obj [("cursor", encOptStr s.cursor),
        ("last_updated", encOptStr s.last_updated),
        ("retries", .obj (s.retries.map (fun p => (p.1, encRetryInfo p.2)))),
        ("failed", .arr (s.failed.map encFailedBookmark)),
        ("backoff", .obj [("current_delay", .float s.backoff.current_delay),
                          ("fibonacci_index", .int s.backoff.fibonacci_index)])]

/-- state.py `StateManager.save`: sets `last_updated` to `now`, then atomically
writes the serialized state. Returns the post-save in-memory state and the file
content (the temp-file-plus-rename mechanics guarantee the file is exactly this). -/
def save (s : State) (now : String) : State × Json :=
  let s2 := { s with last_updated := some now }
  (s2, saveData s2)

/-- state.py `StateManager.set_cursor`: update cursor and save immediately. -/
def set_cursor (s : State) (cursor : String) (now : String) : State × Json :=
  save { s with cursor := some cursor } now

/-- Errors a `StateManager.load` call can raise. `corrupt` models the
`ValueError` raised for `json.JSONDecodeError` / `KeyError`; `uncaught` models
exceptions its handler does not catch (e.g. `AttributeError` / `TypeError`
from indexing non-dict data). -/
inductive LoadError where
  | corrupt (msg : String)
  | uncaught (msg : String)
deriving DecidableEq, Repr

/-- Content of the state file as seen by `load`: missing, present but not valid
JSON, or a parsed JSON document. -/
inductive FileContent where
  | absent
  | invalid
  | json (j : Json)

/-- `load` body: fill `RetryInfo` from a retries-dict entry; a missing key is a
`KeyError`, caught and re-raised as the corrupt-state `ValueError`. -/
def decodeRetryInfo (j : Json) : Except LoadError RetryInfo :=
  match j with
  | .obj kvs =>
    match jsonLookup kvs "attempts", jsonLookup kvs "last_attempt",
          jsonLookup kvs "error_type", jsonLookup kvs "bookmark_id" with
    | some a, some la, some et, some bid =>
      .ok ⟨jsonAsInt a, jsonAsStr la, jsonAsStr et, jsonAsInt bid⟩
    | _, _, _, _ => .error (.corrupt "Corrupted state file: KeyError")
  | _ => .error (.uncaught "TypeError: indexing non-dict retry entry")

/-- `load` body: fill `FailedBookmark` from a failed-list item. -/
def decodeFailedBookmark (j : Json) : Except LoadError FailedBookmark :=
  match j with
  | .obj kvs =>
    match jsonLookup kvs "url", jsonLookup kvs "bookmark_id", jsonLookup kvs "attempts",
          jsonLookup kvs "last_error", jsonLookup kvs "failed_at" with
    | some u, some bid, some a, some le, some fa =>
      .ok ⟨jsonAsStr u, jsonAsInt bid, jsonAsInt a, jsonAsStr le, jsonAsStr fa⟩
    | _, _, _, _, _ => .error (.corrupt "Corrupted state file: KeyError")
  | _ => .error (.uncaught "TypeError: indexing non-dict failed entry")

/-- The retries loop of `load`, mutating `self.state.retries` entry by entry;
an error leaves the mutations made so far in place. -/
def loadRetriesGo (s : State) : List (String × Json) → Option LoadError × State
  | [] => (none, s)
  | (u, j) :: rest =>
    match decodeRetryInfo j with
    | .ok ri => loadRetriesGo { s with retries := dictAssign s.retries u ri } rest
    | .error e => (some e, s)

/-- The failed-bookmarks loop of `load`, appending entry by entry. -/
def loadFailedGo (s : State) : List Json → Option LoadError × State
  | [] => (none, s)
  | j :: rest =>
    match decodeFailedBookmark j with
    | .ok fb => loadFailedGo { s with failed := s.failed ++ [fb] } rest
    | .error e => (some e, s)

/-- The backoff tail of `load` (`if "backoff" in data: ...`). -/
def loadBackoff (s : State) (kvs : List (String × Json)) : Option LoadError × State :=
  match jsonLookup kvs "backoff" with
  | none => (none, s)
  | some (.obj bkvs) =>
    match jsonLookup bkvs "current_delay", jsonLookup bkvs "fibonacci_index" with
    | some cd, some fi => (none, { s with backoff := ⟨jsonAsRat cd, jsonAsInt fi⟩ })
    | _, _ => (some (.corrupt "Corrupted state file: KeyError"), s)
  | some _ => (some (.uncaught "TypeError: indexing non-dict backoff"), s)

/-- state.py `StateManager.load`: read the state file into `self.state`
(starting from `init`, the manager's current in-memory state), mutating it
field by field; returns the error (if any) and the state as mutated so far. -/
def loadRun (fc : FileContent) (init : State) : Option LoadError × State :=
  match fc with
  | .absent => (none, init)
  | .invalid => (some (.corrupt "Corrupted state file: JSONDecodeError"), init)
  | .json (.obj kvs) =>
    let s1 := { init with
      cursor := jsonAsOptStr (jsonLookup kvs "cursor"),
      last_updated := jsonAsOptStr (jsonLookup kvs "last_updated") }
    match (jsonLookup kvs "retries").getD (.obj []) with
    | .obj rkvs =>
      match loadRetriesGo s1 rkvs with
      | (some e, s2) => (some e, s2)
      | (none, s2) =>
        match (jsonLookup kvs "failed").getD (.arr []) with
        | .arr items =>
          match loadFailedGo s2 items with
          | (some e, s3) => (some e, s3)
          | (none, s3) => loadBackoff s3 kvs
        | _ => (some (.uncaught "TypeError: iterating non-list failed value"), s2)
    | _ => (some (.uncaught "AttributeError: items on non-dict retries value"), s1)
  | .json _ => (some (.uncaught "AttributeError: get on non-dict document"), init)

/-- Outcome of the startup state-loading step in xfix.py `main`. -/
inductive StartupResult where
  | started (s : State)
  | crashed
deriving DecidableEq, Repr

/-- xfix.py `main` lines 326-333: `state.load()` wrapped in a handler that
catches the corrupt-state `ValueError`, logs a warning, and continues with
whatever the state object holds; any other exception propagates. -/
def startupLoadState (fc : FileContent) : StartupResult :=
  match loadRun fc emptyState with
  | (none, s) => .started s
  | (some (.corrupt _), s) => .started s
  | (some (.uncaught _), _) => .crashed

/-! ## fetcher.py: string and pattern helpers -/

/-- Python str.replace: replace all non-overlapping occurrences, left to
right. Structural recursion on a fuel argument (every step consumes at least
one character, so fuel equal to the input length always suffices and the
fuel-exhausted branch is unreachable). -/
def replaceAllGo (needle repl : List Char) : Nat → List Char → List Char
  | _, [] => []
  | 0, l => l
  | fuel + 1, c :: rest =>
    if needle ≠ [] ∧ needle.isPrefixOf (c :: rest) then
      repl ++ replaceAllGo needle repl fuel ((c :: rest).drop needle.length)
    else
      c :: replaceAllGo needle repl fuel rest

/-- Python str.replace on strings. -/
def pyReplace (s needle repl : String) : String :=
  (replaceAllGo needle.toList repl.toList s.toList.length s.toList).asString

/-- Python str.strip(): remove leading and trailing whitespace. -/
def pyStrip (s : String) : String :=
  (((s.toList.dropWhile Char.isWhitespace).reverse.dropWhile
      Char.isWhitespace).reverse).asString

/-- Leftmost split of the haystack around the first occurrence of `needle`:
returns the parts before and after it (building block for minimal regex
captures and for Python str.split with maxsplit 1). -/
def splitAtSub (needle : List Char) : List Char → Option (List Char × List Char)
  | [] => if needle.isEmpty then some ([], []) else none
  | c :: rest =>
    if needle.isPrefixOf (c :: rest) then some ([], (c :: rest).drop needle.length)
    else
      match splitAtSub needle rest with
      | some (pre, post) => some (c :: pre, post)
      | none => none

/-- Case-insensitive literal match (re.IGNORECASE over ASCII): when `lit`
(given in lowercase) matches a prefix of `l` up to case, return the remainder. -/
def ciStrip (lit : List Char) (l : List Char) : Option (List Char) :=
  if (l.take lit.length).map Char.toLower = lit then some (l.drop lit.length)
  else none

/-- A nonempty whitespace run (regex one-or-more whitespace): strip it or fail. -/
def wsStrip (l : List Char) : Option (List Char) :=
  if (l.takeWhile Char.isWhitespace).isEmpty then none
  else some (l.dropWhile Char.isWhitespace)

/-- Scan for the leftmost position where the matcher succeeds (regex search). -/
def scanFirst (f : List Char → Option (List Char)) : List Char → Option (List Char)
  | [] => none
  | c :: rest =>
    match f (c :: rest) with
    | some r => some r
    | none => scanFirst f rest

/-- fetcher.py TWEET_ID_PATTERN search: leftmost occurrence of the literal
"/status/" followed by at least one digit; the capture is the maximal digit run. -/
def tweetIdSearch : List Char → Option String
  | [] => none
  | c :: rest =>
    if ("/status/".toList).isPrefixOf (c :: rest) then
      let digits := ((c :: rest).drop 8).takeWhile Char.isDigit
      if digits.isEmpty then tweetIdSearch rest else some digits.asString
    else tweetIdSearch rest

/-- fetcher.py extract_tweet_id. -/
def extract_tweet_id (url : String) : Option String := tweetIdSearch url.toList

/-- fetcher.py AUTHOR_PATTERN matched at the start of `l`: a domain
alternative, a slash, a nonempty run without slashes, then "/status". -/
def authorMatchAt (l : List Char) : Option String :=
  let tryDom : List Char → Option String := fun dom =>
    if dom.isPrefixOf l then
      let rest := l.drop dom.length
      let run := rest.takeWhile (fun ch => ch != '/')
      let rest2 := rest.dropWhile (fun ch => ch != '/')
      if run.isEmpty then none
      else if ("/status".toList).isPrefixOf rest2 then some run.asString
      else none
    else none
  match tryDom "x.com/".toList with
  | some a => some a
  | none => tryDom "twitter.com/".toList

/-- fetcher.py AUTHOR_PATTERN search (leftmost match). -/
def authorSearch : List Char → Option String
  | [] => none
  | c :: rest =>
    match authorMatchAt (c :: rest) with
    | some a => some a
    | none => authorSearch rest

/-- fetcher.py extract_author. -/
def extract_author (url : String) : Option String := authorSearch url.toList

/-- fetcher.py re.sub of a tag-like run (an open bracket, one or more
non-close-bracket characters, a close bracket) by the empty string.
Fuel-structured like replaceAllGo. -/
def stripTagsGo : Nat → List Char → List Char
  | _, [] => []
  | 0, l => l
  | fuel + 1, c :: rest =>
    if c = '<' then
      match rest.dropWhile (fun ch => ch != '>') with
      | '>' :: after =>
        if (rest.takeWhile (fun ch => ch != '>')).isEmpty then
          c :: stripTagsGo fuel rest
        else
          stripTagsGo fuel after
      | _ => c :: stripTagsGo fuel rest
    else c :: stripTagsGo fuel rest

def stripTags (l : List Char) : List Char := stripTagsGo l.length l

/-- Model of Python html.unescape restricted to the five standard entities
(the stdlib also decodes further named and numeric entities, which no claim
depends on): a single left-to-right pass, fuel-structured like replaceAllGo. -/
def htmlUnescapeGo : Nat → List Char → List Char
  | _, [] => []
  | 0, l => l
  | fuel + 1, c :: rest =>
    if c = '&' then
      if ("&quot;".toList).isPrefixOf (c :: rest) then
        '"' :: htmlUnescapeGo fuel ((c :: rest).drop 6)
      else if ("&amp;".toList).isPrefixOf (c :: rest) then
        '&' :: htmlUnescapeGo fuel ((c :: rest).drop 5)
      else if ("&lt;".toList).isPrefixOf (c :: rest) then
        '<' :: htmlUnescapeGo fuel ((c :: rest).drop 4)
      else if ("&gt;".toList).isPrefixOf (c :: rest) then
        '>' :: htmlUnescapeGo fuel ((c :: rest).drop 4)
      else if ("&#39;".toList).isPrefixOf (c :: rest) then
        (Char.ofNat 39) :: htmlUnescapeGo fuel ((c :: rest).drop 5)
      else c :: htmlUnescapeGo fuel rest
    else c :: htmlUnescapeGo fuel rest

def htmlUnescape (s : String) : String :=
  (htmlUnescapeGo s.toList.length s.toList).asString

/-- The chained entity replacements of fetcher.py parse_tweet_from_html,
applied in source order. -/
def unescapeChained (s : String) : String :=
  pyReplace (pyReplace (pyReplace (pyReplace (pyReplace s
    "&quot;" "\"") "&amp;" "&") "&lt;" "<") "&gt;" ">")
    "&#39;" ((Char.ofNat 39).toString)

/-- fetcher.py OEMBED_TEXT_PATTERN matched at the start of `l`: the literal
"<p", a maximal run of non-close-bracket characters, a close bracket, then a
minimal (DOTALL) capture up to the first closing paragraph tag. -/
def oembedMatchAt (l : List Char) : Option (List Char) :=
  match l with
  | '<' :: 'p' :: tail =>
    match tail.dropWhile (fun ch => ch != '>') with
    | '>' :: body =>
      match splitAtSub ("</p>".toList) body with
      | some (cap, _) => some cap
      | none => none
    | _ => none
  | _ => none

/-- fetcher.py META_DESCRIPTION_PATTERN matched at the start of `l`
(case-insensitive literals, capture taken verbatim). -/
def metaDescMatchAt (l : List Char) : Option (List Char) := do
  let r1 ← ciStrip ("<meta".toList) l
  let r2 ← wsStrip r1
  let r3 ←
    match ciStrip ("property=\"og:description\"".toList) r2 with
    | some r => some r
    | none => ciStrip ("name=\"description\"".toList) r2
  let r4 ← wsStrip r3
  let r5 ← ciStrip ("content=\"".toList) r4
  let cap := r5.takeWhile (fun ch => ch != '"')
  match r5.dropWhile (fun ch => ch != '"') with
  | '"' :: _ => some cap
  | _ => none

/-- fetcher.py META_TITLE_PATTERN matched at the start of `l`. -/
def metaTitleMatchAt (l : List Char) : Option (List Char) := do
  let r1 ← ciStrip ("<meta".toList) l
  let r2 ← wsStrip r1
  let r3 ← ciStrip ("property=\"og:title\"".toList) r2
  let r4 ← wsStrip r3
  let r5 ← ciStrip ("content=\"".toList) r4
  let cap := r5.takeWhile (fun ch => ch != '"')
  match r5.dropWhile (fun ch => ch != '"') with
  | '"' :: _ => some cap
  | _ => none

/-! ## fetcher.py: data model and strategies -/

/-- fetcher.py ErrorType enum. -/
inductive ErrorType where
  | network
  | rate_limit
  | not_found
  | parse
deriving DecidableEq, Repr

/-- The value string of an ErrorType member. -/
def ErrorType.value : ErrorType → String
  | .network => "network"
  | .rate_limit => "rate_limit"
  | .not_found => "not_found"
  | .parse => "parse"

/-- fetcher.py TweetContent. Fields receive dynamically typed JSON data in
Python; they are coerced here by the jsonAs functions, which no claim inspects. -/
structure TweetContent where
  author : String
  text : String
  url : String
  author_name : Option String := none
  likes : Option Int := none
  retweets : Option Int := none
  replies : Option Int := none
  views : Option Int := none
deriving DecidableEq, Repr

/-- fetcher.py FetchResult. -/
structure FetchResult where
  success : Bool
  content : Option TweetContent := none
  error_type : Option ErrorType := none
  error_message : Option String := none
deriving DecidableEq, Repr

/-- A FetchResult built with success False (the repeated failure constructor
calls in fetcher.py). -/
def mkErr (et : ErrorType) (msg : String) : FetchResult :=
  { success := false, error_type := some et, error_message := some msg }

def jsonAsOptInt : Option Json → Option Int
  | some (.int i) => some i
  | some (.bool b) => some (if b then 1 else 0)
  | _ => none

/-- Behaviour of the network for one HTTP request: a timeout, another httpx
transport error, or a response carrying a status code, a JSON body (`none`
when response.json() would raise) and a text body. -/
inductive HttpOutcome where
  | timeout
  | httpError (msg : String)
  | response (status : Nat) (jsonBody : Option Json) (textBody : String)

/-- fetcher.py fetch_via_fxtwitter. Besides the result, returns the list of
request URLs issued (empty when the function returns before any network I/O). -/
def fetch_via_fxtwitter (url : String) (net : HttpOutcome) :
    FetchResult × List String :=
  match extract_author url, extract_tweet_id url with
  | some username, some tweet_id =>
    let api_url := "https://api.fxtwitter.com/" ++ username ++ "/status/" ++ tweet_id
    let issued := [api_url]
    match net with
    | .timeout => (mkErr .network "fxtwitter request timed out", issued)
    | .httpError e => (mkErr .network ("fxtwitter HTTP error: " ++ e), issued)
    | .response status jsonBody _ =>
      if status = 404 then
        (mkErr .not_found "Tweet not found via fxtwitter (404)", issued)
      else if status = 429 ∨ status = 403 then
        (mkErr .rate_limit
          ("Rate limited by fxtwitter (" ++ toString status ++ ")"), issued)
      else if status ≠ 200 then
        (mkErr .network ("fxtwitter returned status " ++ toString status), issued)
      else
        match jsonBody with
        | none => (mkErr .parse "fxtwitter parse error: invalid JSON", issued)
        | some (.obj kvs) =>
          if !(jsonOptEqInt (jsonLookup kvs "code") 200) then
            (mkErr .not_found
              (jsonAsStr ((jsonLookup kvs "message").getD
                (.str "Unknown fxtwitter error"))), issued)
          else
            match (jsonLookup kvs "tweet").getD (.obj []) with
            | .obj tkvs =>
              let text := (jsonLookup tkvs "text").getD (.str "")
              let author_info := (jsonLookup tkvs "author").getD (.obj [])
              if !text.truthy then
                (mkErr .parse "No text in fxtwitter response", issued)
              else
                match author_info with
                | .obj akvs =>
                  ({ success := true,
                     content := some {
                       author := jsonAsStr ((jsonLookup akvs "screen_name").getD
                         (.str username)),
                       author_name := jsonAsOptStr (jsonLookup akvs "name"),
                       text := jsonAsStr text,
                       url := url,
                       likes := jsonAsOptInt (jsonLookup tkvs "likes"),
                       retweets := jsonAsOptInt (jsonLookup tkvs "retweets"),
                       replies := jsonAsOptInt (jsonLookup tkvs "replies"),
                       views := jsonAsOptInt (jsonLookup tkvs "views") } }, issued)
                | _ => (mkErr .parse "fxtwitter parse error: AttributeError", issued)
            | _ => (mkErr .parse "fxtwitter parse error: AttributeError", issued)
        | some _ => (mkErr .parse "fxtwitter parse error: AttributeError", issued)
  | _, _ =>
    (mkErr .parse "Could not extract username/tweet_id from URL", [])

/-- fetcher.py fetch_via_oembed, result component: status mapping, then text
extraction from the html field of the JSON body. -/
def fetch_via_oembed_result (url : String) (net : HttpOutcome) : FetchResult :=
  match net with
  | .timeout => mkErr .network "oEmbed request timed out"
  | .httpError e => mkErr .network ("oEmbed HTTP error: " ++ e)
  | .response status jsonBody _ =>
    if status = 404 then
      mkErr .not_found "Tweet not found via oEmbed (404)"
    else if status = 429 then
      mkErr .rate_limit "Rate limited by oEmbed (429)"
    else if status ≠ 200 then
      mkErr .network ("oEmbed returned status " ++ toString status)
    else
      match jsonBody with
      | none => mkErr .parse "oEmbed parse error: invalid JSON"
      | some (.obj kvs) =>
        match (jsonLookup kvs "html").getD (.str "") with
        | .str htmlStr =>
          match scanFirst oembedMatchAt htmlStr.toList with
          | none => mkErr .parse "Could not extract text from oEmbed HTML"
          | some cap =>
            let text := pyStrip (htmlUnescape (stripTags cap).asString)
            if text = "" then
              mkErr .parse "Empty text after parsing oEmbed HTML"
            else
              { success := true,
                content := some {
                  author := (extract_author url).getD "unknown",
                  author_name := jsonAsOptStr (jsonLookup kvs "author_name"),
                  text := text,
                  url := url } }
        | _ => mkErr .parse "oEmbed parse error: TypeError"
      | some _ => mkErr .parse "oEmbed parse error: AttributeError"

/-- fetcher.py fetch_via_oembed. The single request to the oEmbed endpoint is
issued before any status or body inspection, so every code path records it. -/
def fetch_via_oembed (url : String) (net : HttpOutcome) :
    FetchResult × List String :=
  (fetch_via_oembed_result url net,
   ["https://publish.twitter.com/oembed?url=" ++ pyReplace url "x.com" "twitter.com"])

/-- fetcher.py parse_tweet_from_html: OpenGraph description first, og:title as
fallback with the author-prefix split applied. -/
def parse_tweet_from_html (htmlText : String) (url : String) : Option TweetContent :=
  let author := (extract_author url).getD "unknown"
  let fromDesc : Option TweetContent :=
    match scanFirst metaDescMatchAt htmlText.toList with
    | some capture =>
      let text := unescapeChained capture.asString
      if text ≠ "" ∧ text.length > 10 then
        some { author := author, text := text, url := url }
      else none
    | none => none
  match fromDesc with
  | some c => some c
  | none =>
    match scanFirst metaTitleMatchAt htmlText.toList with
    | some capture =>
      let t0 := unescapeChained capture.asString
      let text :=
        match splitAtSub (" on X: ".toList) t0.toList with
        | some (_, post) => post.asString
        | none =>
          match splitAtSub (" on Twitter: ".toList) t0.toList with
          | some (_, post) => post.asString
          | none => t0
      if text ≠ "" ∧ text.length > 10 then
        some { author := author, text := text, url := url }
      else none
    | none => none

/-- fetcher.py fetch_via_html, result component. -/
def fetch_via_html_result (url : String) (net : HttpOutcome) : FetchResult :=
  match net with
  | .timeout => mkErr .network "HTML scrape request timed out"
  | .httpError e => mkErr .network ("HTML scrape HTTP error: " ++ e)
  | .response status _ textBody =>
    if status = 404 then
      mkErr .not_found "Tweet not found (404)"
    else if status = 429 then
      mkErr .rate_limit "Rate limited by X.com (429)"
    else if status ≥ 500 then
      mkErr .network ("Server error (" ++ toString status ++ ")")
    else if status ≠ 200 then
      mkErr .network ("Unexpected status code: " ++ toString status)
    else
      match parse_tweet_from_html textBody url with
      | some content => { success := true, content := some content }
      | none => mkErr .parse "Could not extract tweet content from HTML"

/-- fetcher.py fetch_via_html. The single request to the page itself is issued
before any inspection, so every code path records it. -/
def fetch_via_html (url : String) (net : HttpOutcome) : FetchResult × List String :=
  (fetch_via_html_result url net, [url])

/-- The result of a fetch_tweet call together with an execution trace. -/
structure FetchTrace where
  result : FetchResult
  attempted : List Nat
  requests : List String
deriving DecidableEq, Repr

/-- fetcher.py fetch_tweet: try the three strategies in order. The trace
records which strategies were invoked (1 fxtwitter, 2 oEmbed, 3 direct HTML)
and the HTTP requests issued; each strategy's network behaviour is an oracle. -/
def fetch_tweet (url : String) (net1 net2 net3 : HttpOutcome) : FetchTrace :=
  let a1 := fetch_via_fxtwitter url net1
  if a1.1.success then ⟨a1.1, [1], a1.2⟩
  else if a1.1.error_type = some .not_found then ⟨a1.1, [1], a1.2⟩
  else
    let a2 := fetch_via_oembed url net2
    if a2.1.success then ⟨a2.1, [1, 2], a1.2 ++ a2.2⟩
    else if a2.1.error_type = some .not_found then ⟨a2.1, [1, 2], a1.2 ++ a2.2⟩
    else
      let a3 := fetch_via_html url net3
      ⟨a3.1, [1, 2, 3], a1.2 ++ a2.2 ++ a3.2⟩

/-! ## fetcher.py: RateLimiter -/

/-- fetcher.py RateLimiter (delays are Python floats, modelled as rationals). -/
structure RateLimiter where
  min_delay : ℚ
  max_delay : ℚ
  max_backoff : ℚ
  backoff_delay : ℚ
  fibonacci_index : Nat
deriving DecidableEq, Repr

/-- fetcher.py RateLimiter construction (backoff delay 0, index 0). -/
def RateLimiter.mkNew (min_delay max_delay max_backoff : ℚ) : RateLimiter :=
  ⟨min_delay, max_delay, max_backoff, 0, 0⟩

/-- fetcher.py RateLimiter.base_delay: midpoint of min and max. -/
def RateLimiter.base_delay (rl : RateLimiter) : ℚ :=
  (rl.min_delay + rl.max_delay) / 2

/-- fetcher.py RateLimiter.record_success: reset backoff. -/
def RateLimiter.record_success (rl : RateLimiter) : RateLimiter :=
  { rl with backoff_delay := 0, fibonacci_index := 0 }

/-- fetcher.py RateLimiter.record_error: the local fibonacci list there is the
same literal as FIBONACCI; the index used is clamped to the last element, the
delay is capped at max_backoff, and the index is incremented only after the
delay for this call is computed. Returns the new delay and updated limiter. -/
def RateLimiter.record_error (rl : RateLimiter) : ℚ × RateLimiter :=
  let idx := min rl.fibonacci_index (FIBONACCI.length - 1)
  let multiplier := FIBONACCI.getD idx 0
  let d := min (rl.base_delay * multiplier) rl.max_backoff
  (d, { rl with backoff_delay := d, fibonacci_index := rl.fibonacci_index + 1 })

/-! ## api_client.py: placeholder-title detection and Bookmark -/

/-- api_client.py relative-time pattern: one or more digits then a single
unit letter, anchored at both ends, case-insensitive. -/
def relTimeMatch (l : List Char) : Bool :=
  let digits := l.takeWhile Char.isDigit
  let rest := l.dropWhile Char.isDigit
  !digits.isEmpty &&
    (match rest with
     | [c] =>
       (c.toLower == 'h') || (c.toLower == 'd') || (c.toLower == 'm') ||
         (c.toLower == 'w') || (c.toLower == 's')
     | _ => false)

/-- The month alternatives of the short-date pattern, in source order. -/
def MONTHS : List String :=
  ["jan", "feb", "mar", "apr", "may", "jun", "jul", "aug", "sep", "oct", "nov", "dec"]

/-- api_client.py short-date pattern: a month alternative, a possibly empty
letter run, mandatory whitespace, then one or two digits, anchored at both
ends, case-insensitive. -/
def monthDateMatch (l : List Char) : Bool :=
  match MONTHS.findSome? (fun m => ciStrip m.toList l) with
  | none => false
  | some r1 =>
    let r2 := r1.dropWhile Char.isAlpha
    let ws := r2.takeWhile Char.isWhitespace
    let r3 := r2.dropWhile Char.isWhitespace
    if ws.isEmpty then false
    else
      let ds := r3.takeWhile Char.isDigit
      let r4 := r3.dropWhile Char.isDigit
      !ds.isEmpty && ds.length ≤ 2 && r4.isEmpty

/-- api_client.py full-timestamp pattern: one or two digits, a colon, two
digits, optional whitespace, AM or PM, optional whitespace, a middle dot;
anchored at the start only, case-insensitive. -/
def timeStampMatch (l : List Char) : Bool :=
  let d1 := l.takeWhile Char.isDigit
  let r1 := l.dropWhile Char.isDigit
  if d1.isEmpty || d1.length > 2 then false
  else
    match r1 with
    | ':' :: r2 =>
      let d2 := r2.takeWhile Char.isDigit
      let r3 := r2.dropWhile Char.isDigit
      if d2.length ≠ 2 then false
      else
        match r3.dropWhile Char.isWhitespace with
        | a :: m :: r5 =>
          if ((a.toLower == 'a') || (a.toLower == 'p')) && (m.toLower == 'm') then
            match r5.dropWhile Char.isWhitespace with
            | c :: _ => c = '·'
            | [] => false
          else false
        | _ => false
    | _ => false

/-- api_client.py is_placeholder_title. -/
def is_placeholder_title (title : Option String) : Bool :=
  match title with
  | none => true
  | some t0 =>
    if t0 = "" then true
    else
      let t := pyStrip t0
      if t.length ≤ 5 then true
      else if relTimeMatch t.toList then true
      else if monthDateMatch t.toList then true
      else if timeStampMatch t.toList then true
      else if ("http://".toList).isPrefixOf t.toList then true
      else if ("https://".toList).isPrefixOf t.toList then true
      else false

/-- api_client.py Bookmark (tags carried as raw JSON dicts). -/
structure Bookmark where
  id : Int
  url : String
  title : Option String := none
  comment : Option String := none
  tags : List Json := []
  client_name : Option String := none
  created_at : String := ""
  updated_at : Option String := none

/-- enricher.py EnrichmentResult. -/
structure EnrichmentResult where
  success : Bool
  title : Option String := none
  comment : Option String := none
  error_message : Option String := none
deriving DecidableEq, Repr

/-! ## xfix.py: per-item processing -/

/-- A Python exception escaping process_bookmark uncaught. -/
inductive PyErr where
  | attributeError (msg : String)
deriving DecidableEq, Repr

/-- Oracles for the effectful calls made while processing one bookmark: the
fetch_tweet outcome, the enrichment outcome, and whether the edit_bookmark
write-back raises (some message) or succeeds (none). -/
structure ItemEnv where
  fetch : FetchResult
  enrich : EnrichmentResult
  editError : Option String := none

/-- xfix.py process_bookmark: process a single bookmark (fetch, enrich,
update). Returns the success flag with the updated limiter and state, or the
exception escaping the function. `now` stands for the wall clock; the
rate-limiter wait suspends without changing limiter state. The expression
calling to_markdown on the fetched content (xfix.py line 137) is modelled as
raising AttributeError: TweetContent (fetcher.py lines 42-53) defines no
to_markdown method anywhere in the repository. -/
def process_bookmark (b : Bookmark) (env : ItemEnv) (rl : RateLimiter) (s : State)
    (dry_run : Bool) (now : String) : Except PyErr (Bool × RateLimiter × State) :=
  if is_failed s b.url then .ok (false, rl, s)
  else
    let result := env.fetch
    if !result.success then
      let etype :=
        match result.error_type with
        | some et => et.value
        | none => "unknown"
      let s1 := (record_error s b.url b.id etype 3 now).2
      let rl2 :=
        if result.error_type = some .network ∨ result.error_type = some .rate_limit
        then (rl.record_error).2 else rl
      let s2 := (save s1 now).1
      .ok (false, rl2, s2)
    else
      let rl2 := rl.record_success
      match result.content with
      | none => .error (.attributeError "NoneType has no attribute text")
      | some _content =>
        let replacing_title := is_placeholder_title b.title
        let need_title := !strTruthy b.title || replacing_title
        let need_comment := !strTruthy b.comment
        let enrich_result := env.enrich
        if !enrich_result.success then
          let s1 := (record_error s b.url b.id "ollama" 3 now).2
          let s2 := (save s1 now).1
          .ok (false, rl2, s2)
        else
          let _new_title := if need_title then enrich_result.title else none
          if need_comment then
            .error (.attributeError "TweetContent has no attribute to_markdown")
          else
            if !dry_run then
              match env.editError with
              | some _ =>
                let s1 := (record_error s b.url b.id "network" 3 now).2
                let s2 := (save s1 now).1
                .ok (false, rl2, s2)
              | none =>
                let s3 := record_success s b.url
                let s4 := (save s3 now).1
                .ok (true, rl2, s4)
            else
              let s3 := record_success s b.url
              let s4 := (save s3 now).1
              .ok (true, rl2, s4)

/-- The per-batch portion of xfix.py main_loop (lines 224-243): bookmarks are
processed in order; an exception escaping process_bookmark propagates out of
the for loop to the loop-level handler, so the remaining items of the batch
are skipped. Returns the ids of the items whose processing was started, the
final limiter and state, and whether an exception aborted the batch. -/
def process_batch : List (Bookmark × ItemEnv) → RateLimiter → State → Bool → String →
    List Int × RateLimiter × State × Bool
  | [], rl, s, _, _ => ([], rl, s, false)
  | (b, env) :: rest, rl, s, dry_run, now =>
    match process_bookmark b env rl s dry_run now with
    | .ok (_, rl2, s2) =>
      let r := process_batch rest rl2 s2 dry_run now
      (b.id :: r.1, r.2.1, r.2.2.1, r.2.2.2)
    | .error _ => ([b.id], rl, s, true)

/-- The spec invariant on the state store: every URL in the retries map is
absent from the permanent-failure list. -/
def retriesFailedDisjoint (s : State) : Bool :=
  s.retries.all (fun p => !(is_failed s p.1))

/-! ## Helper lemmas -/

/-- Filtering away a key makes a subsequent lookup of that key fail. -/
theorem retryFind_filter_self (l : List (String × RetryInfo)) (url : String) :
    (l.filter (fun p => p.1 ≠ url)).find? (fun p => p.1 = url) = none := by
  rw [List.find?_eq_none]
  intro x hx
  rcases List.mem_filter.mp hx with ⟨-, hne⟩
  simpa using hne

/-- If a key is absent, filtering it away is the identity. -/
theorem filter_ne_of_find?_none (l : List (String × RetryInfo)) (url : String)
    (h : l.find? (fun p => p.1 = url) = none) :
    l.filter (fun p => p.1 ≠ url) = l := by
  rw [List.filter_eq_self]
  intro x hx
  have := List.find?_eq_none.mp h x hx
  simpa using this

/-- Lookup in an appended list when the first part misses. -/
theorem find?_append_of_none {α : Type} (p : α → Bool) (l1 l2 : List α)
    (h : l1.find? p = none) : (l1 ++ l2).find? p = l2.find? p := by
  induction l1 with
  | nil => rfl
  | cons a tl ih =>
    cases hp : p a with
    | true => simp [List.find?_cons, hp] at h
    | false =>
      simp only [List.find?_cons, hp] at h
      simpa [List.cons_append, List.find?_cons, hp] using ih h

/-- Lookup after the in-place update of every entry holding a given key. -/
theorem retryFind_map_update (l : List (String × RetryInfo)) (url : String)
    (f : RetryInfo → RetryInfo) :
    (l.map (fun p => if p.1 = url then (p.1, f p.2) else p)).find?
        (fun p => p.1 = url)
      = (l.find? (fun p => p.1 = url)).map (fun p => (p.1, f p.2)) := by
  induction l with
  | nil => rfl
  | cons a tl ih =>
    by_cases h : a.1 = url
    · simp [List.find?_cons, h]
    · simp [List.find?_cons, h, ih]

/-- mark_failed removes the URL from retries and appends it to failed. -/
theorem retryFind_mark_failed (s : State) (url : String) (bid att : Int)
    (etype ts : String) :
    retryFind (mark_failed s url bid att etype ts) url = none := by
  unfold retryFind mark_failed
  rw [retryFind_filter_self]
  rfl

/-! ## Claims -/

/-- C2: for the RateLimiter, record_error computes its returned delay as
base_delay times the Fibonacci entry at the clamped index, capped at
max_backoff, and increments the index only after computing that delay; four
consecutive record_error calls on a fresh limiter return the capped delays for
multipliers 1, 1, 2, 3 in that order, each at most max_backoff, and exactly
base*1, base*1, base*2, base*3 when three times the base fits under the cap. -/
theorem c2_rate_limiter_fibonacci_backoff (rl : RateLimiter) (minD maxD maxB : ℚ) :
    ((rl.record_error).1 =
        min (rl.base_delay * FIBONACCI.getD (min rl.fibonacci_index (FIBONACCI.length - 1)) 0)
          rl.max_backoff
      ∧ (rl.record_error).2.fibonacci_index = rl.fibonacci_index + 1
      ∧ (rl.record_error).2.backoff_delay = (rl.record_error).1
      ∧ (rl.record_error).1 ≤ rl.max_backoff)
    ∧
    (((RateLimiter.mkNew minD maxD maxB).record_error).1
        = min ((minD + maxD) / 2 * 1) maxB
      ∧ (((RateLimiter.mkNew minD maxD maxB).record_error).2.record_error).1
        = min ((minD + maxD) / 2 * 1) maxB
      ∧ ((((RateLimiter.mkNew minD maxD maxB).record_error).2.record_error).2.record_error).1
        = min ((minD + maxD) / 2 * 2) maxB
      ∧ (((((RateLimiter.mkNew minD maxD maxB).record_error).2.record_error).2.record_error).2.record_error).1
        = min ((minD + maxD) / 2 * 3) maxB)
    ∧
    (0 ≤ (minD + maxD) / 2 → (minD + maxD) / 2 * 3 ≤ maxB →
      (((RateLimiter.mkNew minD maxD maxB).record_error).1
          = (minD + maxD) / 2 * 1
        ∧ (((RateLimiter.mkNew minD maxD maxB).record_error).2.record_error).1
          = (minD + maxD) / 2 * 1
        ∧ ((((RateLimiter.mkNew minD maxD maxB).record_error).2.record_error).2.record_error).1
          = (minD + maxD) / 2 * 2
        ∧ (((((RateLimiter.mkNew minD maxD maxB).record_error).2.record_error).2.record_error).2.record_error).1
          = (minD + maxD) / 2 * 3)) := by
  refine ⟨⟨rfl, rfl, rfl, min_le_right _ _⟩, ⟨rfl, rfl, rfl, rfl⟩, ?_⟩
  intro h0 h3
  refine ⟨?_, ?_, ?_, ?_⟩
  · show min ((minD + maxD) / 2 * 1) maxB = (minD + maxD) / 2 * 1
    exact min_eq_left (by linarith)
  · show min ((minD + maxD) / 2 * 1) maxB = (minD + maxD) / 2 * 1
    exact min_eq_left (by linarith)
  · show min ((minD + maxD) / 2 * 2) maxB = (minD + maxD) / 2 * 2
    exact min_eq_left (by linarith)
  · show min ((minD + maxD) / 2 * 3) maxB = (minD + maxD) / 2 * 3
    exact min_eq_left (by linarith)

/-- C2 witness: a fresh limiter with min 2, max 4, cap 100 (base 3) yields
delays 3, 3, 6, 9 on four consecutive record_error calls. -/
theorem c2_witness :
    ((RateLimiter.mkNew 2 4 100).record_error).1 = (2 + 4) / 2 * 1
    ∧ (((RateLimiter.mkNew 2 4 100).record_error).2.record_error).1 = (2 + 4) / 2 * 1
    ∧ ((((RateLimiter.mkNew 2 4 100).record_error).2.record_error).2.record_error).1
        = (2 + 4) / 2 * 2
    ∧ (((((RateLimiter.mkNew 2 4 100).record_error).2.record_error).2.record_error).2.record_error).1
        = (2 + 4) / 2 * 3 :=
  (c2_rate_limiter_fibonacci_backoff (RateLimiter.mkNew 2 4 100) 2 4 100).2.2
    (by norm_num) (by norm_num)

/-- C4 counterexample: a present-but-invalid state file makes load raise the
distinguishable corrupt-state error, yet startup catches it and continues with
a fresh state, contradicting the claim that the program never continues with a
fresh (reset) state. -/
theorem c4_counterexample :
    (loadRun .invalid emptyState).1
      = some (.corrupt "Corrupted state file: JSONDecodeError") ∧
    startupLoadState .invalid = .started emptyState :=
  ⟨rfl, rfl⟩

/-- C4 (amended): load fails with a distinguishable corrupt-state error when
the file exists but is not valid structured data, but the startup code catches
exactly that error, logs a warning, and continues running with the state
object as populated so far (a completely fresh state when the file is not
valid JSON at all); a corrupt state file is not a hard startup error. -/
theorem c4_corrupt_state_amended (fc : FileContent) (msg : String) (s : State)
    (h : loadRun fc emptyState = (some (.corrupt msg), s)) :
    (loadRun .invalid emptyState).1
      = some (.corrupt "Corrupted state file: JSONDecodeError") ∧
    startupLoadState fc = .started s := by
  refine ⟨rfl, ?_⟩
  unfold startupLoadState
  rw [h]

/-- C4 witness: startup on a file that is not valid JSON proceeds with the
fresh empty state. -/
theorem c4_witness : startupLoadState .invalid = .started emptyState :=
  (c4_corrupt_state_amended .invalid "Corrupted state file: JSONDecodeError"
    emptyState rfl).2

/-- C9 counterexample: on HTTP 403 the oEmbed strategy classifies the failure
as Network while the fxtwitter strategy classifies it as RateLimited, so the
two status-code mappings are not the same. -/
theorem c9_counterexample :
    (fetch_via_oembed "https://x.com/a/status/1" (.response 403 none "")).1.error_type
      = some .network ∧
    (fetch_via_fxtwitter "https://x.com/a/status/1" (.response 403 none "")).1.error_type
      = some .rate_limit := by
  exact ⟨rfl, rfl⟩

/-- C9 (amended): the oEmbed strategy maps HTTP 404 to NotFound, HTTP 429 to
RateLimited, and any other non-200 status or transport error to Network; it
differs from the fxtwitter mapping on HTTP 403, which oEmbed maps to Network
while fxtwitter maps it to RateLimited. -/
theorem c9_oembed_status_mapping (url : String) (st : Nat) (jb : Option Json)
    (tb msg : String) (a t : String)
    (ha : extract_author url = some a) (ht : extract_tweet_id url = some t) :
    (fetch_via_oembed url (.response 404 jb tb)).1.error_type = some .not_found
    ∧ (fetch_via_oembed url (.response 429 jb tb)).1.error_type = some .rate_limit
    ∧ (st ≠ 404 → st ≠ 429 → st ≠ 200 →
        (fetch_via_oembed url (.response st jb tb)).1.error_type = some .network)
    ∧ (fetch_via_oembed url .timeout).1.error_type = some .network
    ∧ (fetch_via_oembed url (.httpError msg)).1.error_type = some .network
    ∧ (fetch_via_oembed url (.response 403 jb tb)).1.error_type = some .network
    ∧ (fetch_via_fxtwitter url (.response 403 jb tb)).1.error_type = some .rate_limit := by
  refine ⟨rfl, rfl, ?_, rfl, rfl, ?_, ?_⟩
  · intro h404 h429 h200
    simp [fetch_via_oembed, fetch_via_oembed_result, h404, h429, h200, mkErr]
  · simp [fetch_via_oembed, fetch_via_oembed_result, mkErr]
  · unfold fetch_via_fxtwitter
    rw [ha, ht]
    simp [mkErr]

/-- C9 witness: at a well-formed URL, status 500 maps to Network for oEmbed and
403 splits the two strategies. -/
theorem c9_witness :
    (fetch_via_oembed "https://x.com/a/status/1" (.response 500 none "")).1.error_type
      = some .network ∧
    (fetch_via_oembed "https://x.com/a/status/1" (.response 403 none "")).1.error_type
      = some .network ∧
    (fetch_via_fxtwitter "https://x.com/a/status/1" (.response 403 none "")).1.error_type
      = some .rate_limit :=
  ⟨((c9_oembed_status_mapping "https://x.com/a/status/1" 500 none "" "" "a" "1"
      (by decide) (by decide)).2.2.1 (by decide) (by decide) (by decide)),
   ((c9_oembed_status_mapping "https://x.com/a/status/1" 500 none "" "" "a" "1"
      (by decide) (by decide)).2.2.2.2.2.1),
   ((c9_oembed_status_mapping "https://x.com/a/status/1" 500 none "" "" "a" "1"
      (by decide) (by decide)).2.2.2.2.2.2)⟩

/-- C10 counterexample: record_success on a URL with no retry record resets
the live backoff state, so the state does change. -/
theorem c10_counterexample :
    retryFind ({ backoff := ⟨35, 2⟩ } : State) "u" = none ∧
    record_success ({ backoff := ⟨35, 2⟩ } : State) "u" ≠ ({ backoff := ⟨35, 2⟩ } : State) := by
  decide

/-- C10 (amended): record_success on a URL with no retry record raises no
exception and leaves cursor, last_updated, retries, and failed unchanged, but
it unconditionally resets the backoff state to zero; it leaves the entire
state unchanged only when the backoff state is already zero. -/
theorem c10_record_success_amended (s : State) (url : String)
    (h : retryFind s url = none) :
    (record_success s url).cursor = s.cursor
    ∧ (record_success s url).last_updated = s.last_updated
    ∧ (record_success s url).retries = s.retries
    ∧ (record_success s url).failed = s.failed
    ∧ (record_success s url).backoff = ⟨0, 0⟩
    ∧ (s.backoff = ⟨0, 0⟩ → record_success s url = s) := by
  have hf : s.retries.find? (fun p => p.1 = url) = none := by
    unfold retryFind at h
    exact Option.map_eq_none'.mp h
  have hfil : s.retries.filter (fun p => p.1 ≠ url) = s.retries :=
    filter_ne_of_find?_none _ _ hf
  refine ⟨rfl, rfl, by simpa [record_success] using hfil, rfl, rfl, ?_⟩
  intro hb
  cases s with
  | mk c lu r f b =>
    simp only [record_success] at *
    simp_all
    exact hfil

/-- C10 witness: on a state in live backoff with an empty retry map,
record_success keeps the four listed components and zeroes the backoff. -/
theorem c10_witness :
    (record_success ({ backoff := ⟨35, 2⟩ } : State) "u").retries = [] ∧
    (record_success ({ backoff := ⟨35, 2⟩ } : State) "u").backoff = ⟨0, 0⟩ :=
  ⟨(c10_record_success_amended ({ backoff := ⟨35, 2⟩ } : State) "u" (by decide)).2.2.1,
   (c10_record_success_amended ({ backoff := ⟨35, 2⟩ } : State) "u" (by decide)).2.2.2.2.1⟩

/-- C5: the claim says every per-item failure is caught at the item boundary
and the batch continues; in the code, processing a bookmark that needs a
comment (after a successful fetch and enrichment) calls to_markdown on
TweetContent, which does not exist, and the resulting AttributeError escapes
process_bookmark; the batch loop has no per-item handler, so the remaining
items of the batch are skipped. -/
theorem c5_to_markdown_aborts_batch :
    process_bookmark
      { id := 1, url := "https://x.com/a/status/1", comment := none }
      { fetch := { success := true,
                   content := some { author := "a", text := "hello there",
                                     url := "https://x.com/a/status/1" } },
        enrich := { success := true, title := some "T", comment := some "S" } }
      (RateLimiter.mkNew 2 4 100) emptyState false "t0"
      = .error (.attributeError "TweetContent has no attribute to_markdown")
    ∧ (process_batch
        [({ id := 1, url := "https://x.com/a/status/1", comment := none },
          { fetch := { success := true,
                       content := some { author := "a", text := "hello there",
                                         url := "https://x.com/a/status/1" } },
            enrich := { success := true, title := some "T", comment := some "S" } }),
         ({ id := 2, url := "https://x.com/b/status/2", comment := none },
          { fetch := { success := true,
                       content := some { author := "b", text := "more text here",
                                         url := "https://x.com/b/status/2" } },
            enrich := { success := true, title := some "U", comment := some "V" } })]
        (RateLimiter.mkNew 2 4 100) emptyState false "t0").1 = [1]
    ∧ (process_batch
        [({ id := 1, url := "https://x.com/a/status/1", comment := none },
          { fetch := { success := true,
                       content := some { author := "a", text := "hello there",
                                         url := "https://x.com/a/status/1" } },
            enrich := { success := true, title := some "T", comment := some "S" } }),
         ({ id := 2, url := "https://x.com/b/status/2", comment := none },
          { fetch := { success := true,
                       content := some { author := "b", text := "more text here",
                                         url := "https://x.com/b/status/2" } },
            enrich := { success := true, title := some "U", comment := some "V" } })]
        (RateLimiter.mkNew 2 4 100) emptyState false "t0").2.2.2 = true := by
  exact ⟨rfl, rfl, rfl⟩

/-- When strategy 1 fails with a non-NotFound kind, fetch_tweet reduces to the
oEmbed/HTML tail (shared shape lemma). -/
theorem fetch_tweet_fallthrough (url : String) (n1 n2 n3 : HttpOutcome)
    (hs : (fetch_via_fxtwitter url n1).1.success = false)
    (hn : (fetch_via_fxtwitter url n1).1.error_type ≠ some .not_found) :
    fetch_tweet url n1 n2 n3 =
      (if (fetch_via_oembed url n2).1.success then
        ⟨(fetch_via_oembed url n2).1, [1, 2],
          (fetch_via_fxtwitter url n1).2 ++ (fetch_via_oembed url n2).2⟩
      else if (fetch_via_oembed url n2).1.error_type = some .not_found then
        ⟨(fetch_via_oembed url n2).1, [1, 2],
          (fetch_via_fxtwitter url n1).2 ++ (fetch_via_oembed url n2).2⟩
      else
        ⟨(fetch_via_html url n3).1, [1, 2, 3],
          (fetch_via_fxtwitter url n1).2 ++ (fetch_via_oembed url n2).2
            ++ (fetch_via_html url n3).2⟩) := by
  unfold fetch_tweet
  dsimp only
  rw [if_neg (by simp [hs]), if_neg hn]

/-- C6 counterexample: a URL with no numeric id after the status segment makes
strategy 1 fail with Parse, but fetch_tweet then invokes the remaining
strategies, performs network I/O, and can return a non-Parse outcome (here
Network from strategy 3). -/
theorem c6_counterexample :
    extract_tweet_id "https://x.com/foo/bar" = none ∧
    (fetch_tweet "https://x.com/foo/bar" .timeout (.response 500 none "")
        (.response 500 none "")).result.error_type = some .network ∧
    (fetch_tweet "https://x.com/foo/bar" .timeout (.response 500 none "")
        (.response 500 none "")).requests ≠ [] := by
  decide

/-- C6 (amended): for every URL lacking a numeric id segment after the status
segment, the fxtwitter strategy returns a Parse failure without performing any
network I/O, but fetch_tweet does not stop there: it always proceeds to the
oEmbed strategy (and possibly the direct-HTML strategy), which do issue HTTP
requests, and the final outcome is whatever the remaining strategies produce. -/
theorem c6_missing_id_amended (url : String) (n1 n2 n3 : HttpOutcome)
    (h : extract_tweet_id url = none) :
    fetch_via_fxtwitter url n1
      = (mkErr .parse "Could not extract username/tweet_id from URL", [])
    ∧ (fetch_tweet url n1 n2 n3).attempted ≠ [1]
    ∧ 2 ∈ (fetch_tweet url n1 n2 n3).attempted
    ∧ (fetch_tweet url n1 n2 n3).requests ≠ [] := by
  have h1 : fetch_via_fxtwitter url n1
      = (mkErr .parse "Could not extract username/tweet_id from URL", []) := by
    unfold fetch_via_fxtwitter
    rw [h]
    cases extract_author url <;> rfl
  have hs : (fetch_via_fxtwitter url n1).1.success = false := by
    rw [h1]
    rfl
  have hn : (fetch_via_fxtwitter url n1).1.error_type ≠ some .not_found := by
    rw [h1]
    simp [mkErr]
  have h2 := fetch_tweet_fallthrough url n1 n2 n3 hs hn
  refine ⟨h1, ?_, ?_, ?_⟩
  · rw [h2]
    split_ifs <;> simp
  · rw [h2]
    split_ifs <;> simp
  · rw [h2, h1]
    split_ifs <;> simp [fetch_via_oembed]

/-- C6 witness: the amended behaviour at a concrete id-less URL with concrete
network outcomes. -/
theorem c6_witness :
    fetch_via_fxtwitter "https://x.com/foo/bar" .timeout
      = (mkErr .parse "Could not extract username/tweet_id from URL", [])
    ∧ 2 ∈ (fetch_tweet "https://x.com/foo/bar" .timeout (.response 500 none "")
        (.response 500 none "")).attempted
    ∧ (fetch_tweet "https://x.com/foo/bar" .timeout (.response 500 none "")
        (.response 500 none "")).requests ≠ [] :=
  ⟨(c6_missing_id_amended "https://x.com/foo/bar" .timeout (.response 500 none "")
      (.response 500 none "") (by decide)).1,
   (c6_missing_id_amended "https://x.com/foo/bar" .timeout (.response 500 none "")
      (.response 500 none "") (by decide)).2.2.1,
   (c6_missing_id_amended "https://x.com/foo/bar" .timeout (.response 500 none "")
      (.response 500 none "") (by decide)).2.2.2⟩

/-- C1: fetch_tweet attempts the three strategies strictly in order,
short-circuiting with the first successful result; a NotFound failure stops
the chain and that outcome is returned; every other failure kind falls through
to the next strategy; and when the first two fall through the third strategy's
outcome (in particular its failure) is returned. -/
theorem c1_fetch_tweet_strategy_order (url : String) (n1 n2 n3 : HttpOutcome) :
    ((fetch_tweet url n1 n2 n3).attempted = [1]
      ∨ (fetch_tweet url n1 n2 n3).attempted = [1, 2]
      ∨ (fetch_tweet url n1 n2 n3).attempted = [1, 2, 3])
    ∧ ((fetch_via_fxtwitter url n1).1.success = true →
        (fetch_tweet url n1 n2 n3).result = (fetch_via_fxtwitter url n1).1
        ∧ (fetch_tweet url n1 n2 n3).attempted = [1])
    ∧ ((fetch_via_fxtwitter url n1).1.success = false →
        (fetch_via_fxtwitter url n1).1.error_type = some .not_found →
        (fetch_tweet url n1 n2 n3).result = (fetch_via_fxtwitter url n1).1
        ∧ (fetch_tweet url n1 n2 n3).attempted = [1])
    ∧ ((fetch_via_fxtwitter url n1).1.success = false →
        (fetch_via_fxtwitter url n1).1.error_type ≠ some .not_found →
        (fetch_via_oembed url n2).1.success = true →
        (fetch_tweet url n1 n2 n3).result = (fetch_via_oembed url n2).1
        ∧ (fetch_tweet url n1 n2 n3).attempted = [1, 2])
    ∧ ((fetch_via_fxtwitter url n1).1.success = false →
        (fetch_via_fxtwitter url n1).1.error_type ≠ some .not_found →
        (fetch_via_oembed url n2).1.success = false →
        (fetch_via_oembed url n2).1.error_type = some .not_found →
        (fetch_tweet url n1 n2 n3).result = (fetch_via_oembed url n2).1
        ∧ (fetch_tweet url n1 n2 n3).attempted = [1, 2])
    ∧ ((fetch_via_fxtwitter url n1).1.success = false →
        (fetch_via_fxtwitter url n1).1.error_type ≠ some .not_found →
        (fetch_via_oembed url n2).1.success = false →
        (fetch_via_oembed url n2).1.error_type ≠ some .not_found →
        (fetch_tweet url n1 n2 n3).result = (fetch_via_html url n3).1
        ∧ (fetch_tweet url n1 n2 n3).attempted = [1, 2, 3]) := by
  constructor
  · unfold fetch_tweet
    dsimp only
    split_ifs <;> simp
  refine ⟨?_, ?_, ?_, ?_, ?_⟩
  · intro h1
    unfold fetch_tweet
    dsimp only
    rw [if_pos h1]
    exact ⟨rfl, rfl⟩
  · intro h1 h2
    unfold fetch_tweet
    dsimp only
    rw [if_neg (by simp [h1]), if_pos h2]
    exact ⟨rfl, rfl⟩
  · intro h1 h2 h3
    rw [fetch_tweet_fallthrough url n1 n2 n3 h1 h2, if_pos h3]
    exact ⟨rfl, rfl⟩
  · intro h1 h2 h3 h4
    rw [fetch_tweet_fallthrough url n1 n2 n3 h1 h2, if_neg (by simp [h3]), if_pos h4]
    exact ⟨rfl, rfl⟩
  · intro h1 h2 h3 h4
    rw [fetch_tweet_fallthrough url n1 n2 n3 h1 h2, if_neg (by simp [h3]), if_neg h4]
    exact ⟨rfl, rfl⟩

/-- C1 witness: strategy 1 times out (Network), strategy 2 succeeds; the final
outcome is strategy 2's success and strategy 3 is never attempted. -/
theorem c1_witness :
    (fetch_tweet "https://x.com/a/status/1" .timeout
        (.response 200 (some (.obj [("html", .str "<p>hello world</p>")])) "")
        .timeout).result
      = (fetch_via_oembed "https://x.com/a/status/1"
          (.response 200 (some (.obj [("html", .str "<p>hello world</p>")])) "")).1
    ∧ (fetch_tweet "https://x.com/a/status/1" .timeout
        (.response 200 (some (.obj [("html", .str "<p>hello world</p>")])) "")
        .timeout).attempted = [1, 2] :=
  (c1_fetch_tweet_strategy_order "https://x.com/a/status/1" .timeout
      (.response 200 (some (.obj [("html", .str "<p>hello world</p>")])) "")
      .timeout).2.2.2.1 (by decide) (by decide) (by decide)

/-- C3 counterexample: with an existing retry record of 5 attempts, a network
error with maxAttempts 3 promotes the URL recording attempts equal to 3 (the
cap passed to the call), not the accumulated count 6, so the accumulated
attempt count is not preserved. -/
theorem c3_counterexample :
    get_retry_count ({ retries := [("u", ⟨5, "t0", "network", 7⟩)] } : State) "u" = 5
    ∧ (record_error ({ retries := [("u", ⟨5, "t0", "network", 7⟩)] } : State)
        "u" 7 "network" 3 "t1").1 = false
    ∧ (record_error ({ retries := [("u", ⟨5, "t0", "network", 7⟩)] } : State)
        "u" 7 "network" 3 "t1").2.failed = [⟨"u", 7, 3, "network", "t1"⟩] := by
  decide

/-- C3 (amended): record_error with kind not_found immediately places the URL
on the permanent-failure list with attempts 1, removing any prior retry
record, and returns do-not-retry; for any other kind it increments (or creates
with attempts 1) the retry record, and iff the resulting attempts reach
maxAttempts it promotes the URL to permanent failure recording attempts equal
to maxAttempts (the cap passed to that call, which equals the accumulated
count only when that count does not exceed the cap) and returns do-not-retry,
otherwise it returns retry. -/
theorem c3_record_error_amended (s : State) (url : String) (bid : Int)
    (etype : String) (maxA : Int) (now : String) :
    (etype = "not_found" →
      (record_error s url bid etype maxA now).1 = false
      ∧ retryFind (record_error s url bid etype maxA now).2 url = none
      ∧ (record_error s url bid etype maxA now).2.failed
          = s.failed ++ [⟨url, bid, 1, etype, now⟩])
    ∧ (etype ≠ "not_found" → get_retry_count s url + 1 ≥ maxA →
      (record_error s url bid etype maxA now).1 = false
      ∧ retryFind (record_error s url bid etype maxA now).2 url = none
      ∧ (record_error s url bid etype maxA now).2.failed
          = s.failed ++ [⟨url, bid, maxA, etype, now⟩])
    ∧ (etype ≠ "not_found" → get_retry_count s url + 1 < maxA →
      (record_error s url bid etype maxA now).1 = true
      ∧ (retryFind (record_error s url bid etype maxA now).2 url).map
          RetryInfo.attempts = some (get_retry_count s url + 1)
      ∧ (retryFind (record_error s url bid etype maxA now).2 url).map
          RetryInfo.error_type = some etype
      ∧ (retryFind (record_error s url bid etype maxA now).2 url).map
          RetryInfo.last_attempt = some now
      ∧ (record_error s url bid etype maxA now).2.failed = s.failed) := by
  refine ⟨?_, ?_, ?_⟩
  · intro he
    unfold record_error
    rw [if_pos he]
    exact ⟨rfl, retryFind_mark_failed _ _ _ _ _ _, rfl⟩
  · intro he hge
    unfold record_error
    rw [if_neg he]
    cases hr : retryFind s url with
    | none =>
      have hc : get_retry_count s url = 0 := by
        unfold get_retry_count
        rw [hr]
      dsimp only
      rw [if_pos (by omega)]
      exact ⟨rfl, retryFind_mark_failed _ _ _ _ _ _, rfl⟩
    | some info =>
      have hc : get_retry_count s url = info.attempts := by
        unfold get_retry_count
        rw [hr]
      dsimp only
      rw [if_pos (by omega)]
      exact ⟨rfl, retryFind_mark_failed _ _ _ _ _ _, rfl⟩
  · intro he hlt
    unfold record_error
    rw [if_neg he]
    cases hf : s.retries.find? (fun p => p.1 = url) with
    | none =>
      have hr : retryFind s url = none := by
        unfold retryFind
        rw [hf]
        rfl
      have hc : get_retry_count s url = 0 := by
        unfold get_retry_count
        rw [hr]
      rw [hr]
      dsimp only
      rw [if_neg (by omega)]
      have hfind : ((s.retries ++ [(url, (⟨1, now, etype, bid⟩ : RetryInfo))]).find?
          (fun p => p.1 = url)) = some (url, ⟨1, now, etype, bid⟩) := by
        rw [find?_append_of_none _ _ _ hf]
        simp [List.find?_cons]
      refine ⟨rfl, ?_, ?_, ?_, rfl⟩ <;>
        simp [retryFind, hfind, hc]
    | some pr =>
      have hr : retryFind s url = some pr.2 := by
        unfold retryFind
        rw [hf]
        rfl
      have hc : get_retry_count s url = pr.2.attempts := by
        unfold get_retry_count
        rw [hr]
      rw [hr]
      dsimp only
      rw [if_neg (by omega)]
      have hupd := retryFind_map_update s.retries url
        (fun ri => { ri with attempts := ri.attempts + 1,
                             last_attempt := now, error_type := etype })
      refine ⟨rfl, ?_, ?_, ?_, rfl⟩ <;>
        simp [retryFind, hupd, hf, hc]

/-- C3 witness: three network errors with maxAttempts 3 starting from a fresh
state; the first two return retry, the third promotes with attempts 3. -/
theorem c3_witness :
    ((record_error emptyState "u" 7 "network" 3 "t1").1 = true
      ∧ (retryFind (record_error emptyState "u" 7 "network" 3 "t1").2 "u").map
          RetryInfo.attempts = some 1)
    ∧ ((record_error ({ retries := [("u", ⟨2, "t0", "network", 7⟩)] } : State)
          "u" 7 "network" 3 "t2").1 = false
      ∧ (record_error ({ retries := [("u", ⟨2, "t0", "network", 7⟩)] } : State)
          "u" 7 "network" 3 "t2").2.failed = [⟨"u", 7, 3, "network", "t2"⟩])
    ∧ ((record_error emptyState "v" 8 "not_found" 3 "t3").2.failed
        = [⟨"v", 8, 1, "not_found", "t3"⟩]) :=
  ⟨⟨((c3_record_error_amended emptyState "u" 7 "network" 3 "t1").2.2
      (by decide) (by decide)).1,
    ((c3_record_error_amended emptyState "u" 7 "network" 3 "t1").2.2
      (by decide) (by decide)).2.1⟩,
   ⟨((c3_record_error_amended ({ retries := [("u", ⟨2, "t0", "network", 7⟩)] } : State)
        "u" 7 "network" 3 "t2").2.1 (by decide) (by decide)).1,
    by
      have := ((c3_record_error_amended
        ({ retries := [("u", ⟨2, "t0", "network", 7⟩)] } : State)
        "u" 7 "network" 3 "t2").2.1 (by decide) (by decide)).2.2
      simpa using this⟩,
   by
     have := ((c3_record_error_amended emptyState "v" 8 "not_found" 3 "t3").1 rfl).2.2
     simpa using this⟩

/-- Decoding inverts encoding for retry entries. -/
theorem decode_encRetryInfo (ri : RetryInfo) :
    decodeRetryInfo (encRetryInfo ri) = .ok ri := rfl

/-- Decoding inverts encoding for failed bookmarks. -/
theorem decode_encFailedBookmark (fb : FailedBookmark) :
    decodeFailedBookmark (encFailedBookmark fb) = .ok fb := rfl

/-- Dict assignment of a fresh key appends. -/
theorem dictAssign_fresh (m : List (String × RetryInfo)) (k : String) (v : RetryInfo)
    (h : m.any (fun p => p.1 = k) = false) :
    dictAssign m k v = m ++ [(k, v)] := by
  simp [dictAssign, h]

/-- Loading the encoded retries dict into a state appends exactly the original
entries, provided the keys are fresh and mutually distinct. -/
theorem loadRetriesGo_enc (l : List (String × RetryInfo)) (s : State)
    (hdis : ∀ p ∈ l, s.retries.any (fun q => q.1 = p.1) = false)
    (hnd : (l.map Prod.fst).Nodup) :
    loadRetriesGo s (l.map (fun p => (p.1, encRetryInfo p.2)))
      = (none, { s with retries := s.retries ++ l }) := by
  induction l generalizing s with
  | nil => simp [loadRetriesGo]
  | cons a tl ih =>
    obtain ⟨u, ri⟩ := a
    simp only [List.map_cons, loadRetriesGo, decode_encRetryInfo]
    rw [dictAssign_fresh _ _ _ (hdis (u, ri) (List.mem_cons_self _ _))]
    rw [ih { s with retries := s.retries ++ [(u, ri)] } ?fresh ?nodup]
    · simp
    case fresh =>
      intro p hp
      rw [List.any_append]
      have h1 := hdis p (List.mem_cons_of_mem _ hp)
      have h2 : u ≠ p.1 := by
        intro he
        have hmem : p.1 ∈ tl.map Prod.fst := List.mem_map_of_mem Prod.fst hp
        rw [← he] at hmem
        exact (List.nodup_cons.mp (by simpa using hnd)).1 hmem
      simp [h1, h2]
    case nodup =>
      exact (List.nodup_cons.mp (by simpa using hnd)).2

/-- Loading the encoded failed list into a state appends exactly the original
entries. -/
theorem loadFailedGo_enc (l : List FailedBookmark) (s : State) :
    loadFailedGo s (l.map encFailedBookmark)
      = (none, { s with failed := s.failed ++ l }) := by
  induction l generalizing s with
  | nil => simp [loadFailedGo]
  | cons a tl ih =>
    simp only [List.map_cons, loadFailedGo, decode_encFailedBookmark]
    rw [ih { s with failed := s.failed ++ [a] }]
    simp

/-- Shared round-trip lemma: loading the file written by save into a fresh
manager yields no error and exactly the saved in-memory state. -/
theorem loadRun_save (s : State) (now : String)
    (hnd : (s.retries.map Prod.fst).Nodup) :
    loadRun (.json (save s now).2) emptyState = (none, (save s now).1) := by
  cases s with
  | mk cur lu rts fld bk =>
    cases bk with
    | mk cd fi =>
      cases cur with
      | none =>
        have step1 : loadRun (.json (save ⟨none, lu, rts, fld, ⟨cd, fi⟩⟩ now).2) emptyState
            = (match loadRetriesGo
                  ({ emptyState with cursor := none, last_updated := some now })
                  (rts.map fun p => (p.1, encRetryInfo p.2)) with
               | (some e, s2) => (some e, s2)
               | (none, s2) =>
                 match loadFailedGo s2 (fld.map encFailedBookmark) with
                 | (some e, s3) => (some e, s3)
                 | (none, s3) => (none, { s3 with backoff := ⟨cd, fi⟩ })) := rfl
        rw [step1, loadRetriesGo_enc rts
            ({ emptyState with cursor := none, last_updated := some now })
            (by intro p hp; rfl) hnd]
        dsimp only
        rw [loadFailedGo_enc fld]
        dsimp only
        simp [save, emptyState]
      | some c =>
        have step1 : loadRun (.json (save ⟨some c, lu, rts, fld, ⟨cd, fi⟩⟩ now).2) emptyState
            = (match loadRetriesGo
                  ({ emptyState with cursor := some c, last_updated := some now })
                  (rts.map fun p => (p.1, encRetryInfo p.2)) with
               | (some e, s2) => (some e, s2)
               | (none, s2) =>
                 match loadFailedGo s2 (fld.map encFailedBookmark) with
                 | (some e, s3) => (some e, s3)
                 | (none, s3) => (none, { s3 with backoff := ⟨cd, fi⟩ })) := rfl
        rw [step1, loadRetriesGo_enc rts
            ({ emptyState with cursor := some c, last_updated := some now })
            (by intro p hp; rfl) hnd]
        dsimp only
        rw [loadFailedGo_enc fld]
        dsimp only
        simp [save, emptyState]

/-- C7: for every state value, save followed by load in a fresh StateManager
instance pointed at the same file reproduces an identical cursor, retry map,
failure list, and backoff state (the retry dict keys are unique in any state a
Python dict can hold). -/
theorem c7_save_load_roundtrip (s : State) (now : String)
    (hnd : (s.retries.map Prod.fst).Nodup) :
    (loadRun (.json (save s now).2) emptyState).1 = none
    ∧ (loadRun (.json (save s now).2) emptyState).2.cursor = s.cursor
    ∧ (loadRun (.json (save s now).2) emptyState).2.retries = s.retries
    ∧ (loadRun (.json (save s now).2) emptyState).2.failed = s.failed
    ∧ (loadRun (.json (save s now).2) emptyState).2.backoff = s.backoff := by
  rw [loadRun_save s now hnd]
  exact ⟨rfl, rfl, rfl, rfl, rfl⟩

/-- C7 witness: round trip of a concrete state with a cursor, two retry
records, one permanent failure, and live backoff. -/
theorem c7_witness :
    (loadRun (.json (save (State.mk (some "c") none
        [("a", ⟨1, "x", "network", 2⟩), ("b", ⟨2, "y", "parse", 3⟩)]
        [⟨"f", 4, 3, "network", "z"⟩] ⟨7/2, 4⟩) "NOW").2) emptyState).1 = none
    ∧ (loadRun (.json (save (State.mk (some "c") none
        [("a", ⟨1, "x", "network", 2⟩), ("b", ⟨2, "y", "parse", 3⟩)]
        [⟨"f", 4, 3, "network", "z"⟩] ⟨7/2, 4⟩) "NOW").2) emptyState).2.retries
      = [("a", ⟨1, "x", "network", 2⟩), ("b", ⟨2, "y", "parse", 3⟩)]
    ∧ (loadRun (.json (save (State.mk (some "c") none
        [("a", ⟨1, "x", "network", 2⟩), ("b", ⟨2, "y", "parse", 3⟩)]
        [⟨"f", 4, 3, "network", "z"⟩] ⟨7/2, 4⟩) "NOW").2) emptyState).2.backoff
      = ⟨7/2, 4⟩ :=
  ⟨(c7_save_load_roundtrip _ "NOW" (by decide)).1,
   (c7_save_load_roundtrip _ "NOW" (by decide)).2.2.1,
   (c7_save_load_roundtrip _ "NOW" (by decide)).2.2.2.2⟩

/-- The invariant in membership form. -/
theorem disjoint_iff (s : State) :
    retriesFailedDisjoint s = true ↔
      ∀ p ∈ s.retries, ∀ fb ∈ s.failed, fb.url ≠ p.1 := by
  simp [retriesFailedDisjoint, is_failed, List.all_eq_true,
    Bool.not_eq_true', List.any_eq_false, decide_eq_true_eq]

/-- is_failed in membership form. -/
theorem is_failed_false_iff (s : State) (url : String) :
    is_failed s url = false ↔ ∀ fb ∈ s.failed, fb.url ≠ url := by
  simp [is_failed, List.any_eq_false, decide_eq_true_eq]

/-- Keys survive the in-place update map of record_error. -/
theorem mem_map_update_key (l : List (String × RetryInfo)) (url : String)
    (f : RetryInfo → RetryInfo) (p : String × RetryInfo)
    (hp : p ∈ l.map (fun q => if q.1 = url then (q.1, f q.2) else q)) :
    ∃ q ∈ l, p.1 = q.1 := by
  rcases List.mem_map.mp hp with ⟨q, hq, he⟩
  refine ⟨q, hq, ?_⟩
  by_cases h : q.1 = url
  · rw [if_pos h] at he
    rw [← he]
  · rw [if_neg h] at he
    rw [← he]

/-- C8 counterexample: on a state satisfying the invariant in which a URL is
already permanently failed, record_error with a retryable kind and remaining
attempts re-creates a retry record for it, placing the URL in both the retries
map and the permanent-failure list at once. -/
theorem c8_counterexample :
    retriesFailedDisjoint ({ failed := [⟨"u", 1, 1, "not_found", "t0"⟩] } : State) = true
    ∧ retriesFailedDisjoint
        (record_error ({ failed := [⟨"u", 1, 1, "not_found", "t0"⟩] } : State)
          "u" 1 "network" 3 "t1").2 = false := by
  decide

/-- C8 (amended): the invariant that each URL appears in at most one of the
retries map and the permanent-failure list is preserved by record_success,
save, cursor updates, loading a saved state, and by record_error for every
error kind and maxAttempts whenever the URL is not already on the
permanent-failure list (which the orchestrator guarantees by skipping failed
URLs before processing); record_error on an already-failed URL with a
retryable kind and remaining attempts violates the invariant. -/
theorem c8_invariant_amended (s : State) (url cur : String) (bid : Int)
    (etype : String) (maxA : Int) (now : String)
    (hinv : retriesFailedDisjoint s = true) :
    (is_failed s url = false →
      retriesFailedDisjoint (record_error s url bid etype maxA now).2 = true)
    ∧ retriesFailedDisjoint (record_success s url) = true
    ∧ retriesFailedDisjoint (save s now).1 = true
    ∧ retriesFailedDisjoint (set_cursor s cur now).1 = true
    ∧ retriesFailedDisjoint (clear_cursor s) = true
    ∧ ((s.retries.map Prod.fst).Nodup →
        retriesFailedDisjoint (loadRun (.json (save s now).2) emptyState).2 = true) := by
  have hinv' := (disjoint_iff s).mp hinv
  refine ⟨?_, ?_, hinv, hinv, hinv, ?_⟩
  · intro hnf
    have hnf' : ∀ fb ∈ s.failed, fb.url ≠ url := (is_failed_false_iff s url).mp hnf
    unfold record_error
    split_ifs with he
    · -- not_found: immediate promotion
      rw [disjoint_iff]
      intro p hp fb hfb
      rcases List.mem_filter.mp hp with ⟨hp0, hpne⟩
      have hpne' : p.1 ≠ url := by simpa using hpne
      rcases List.mem_append.mp hfb with hfb0 | hfb1
      · exact hinv' p hp0 fb hfb0
      · have : fb = ⟨url, bid, 1, etype, now⟩ := by simpa using hfb1
        rw [this]
        exact fun hcontra => hpne' hcontra.symm
    · cases hr : retryFind s url with
      | none =>
        dsimp only
        split_ifs with hge
        · -- promotion after increment
          rw [disjoint_iff]
          intro p hp fb hfb
          rcases List.mem_filter.mp hp with ⟨hp0, hpne⟩
          have hpne' : p.1 ≠ url := by simpa using hpne
          have hp1 : p ∈ s.retries := by
            rcases List.mem_append.mp hp0 with h1 | h2
            · exact h1
            · exact absurd (by simpa using h2 : p = (url, _)) (by
                intro hh
                exact hpne' (by rw [hh]))
          rcases List.mem_append.mp hfb with hfb0 | hfb1
          · exact hinv' p hp1 fb hfb0
          · have : fb = ⟨url, bid, maxA, etype, now⟩ := by simpa using hfb1
            rw [this]
            exact fun hcontra => hpne' hcontra.symm
        · -- retry: append a fresh record
          rw [disjoint_iff]
          intro p hp fb hfb
          rcases List.mem_append.mp hp with h1 | h2
          · exact hinv' p h1 fb hfb
          · have hp1 : p.1 = url := by
              have : p = (url, (⟨1, now, etype, bid⟩ : RetryInfo)) := by simpa using h2
              rw [this]
            rw [hp1]
            exact hnf' fb hfb
      | some info =>
        dsimp only
        split_ifs with hge
        · rw [disjoint_iff]
          intro p hp fb hfb
          rcases List.mem_filter.mp hp with ⟨hp0, hpne⟩
          have hpne' : p.1 ≠ url := by simpa using hpne
          have hp0' : p ∈ s.retries.map (fun q =>
              if q.1 = url then
                (q.1, (fun ri => RetryInfo.mk (ri.attempts + 1) now etype
                  ri.bookmark_id) q.2)
              else q) := hp0
          rcases mem_map_update_key s.retries url
            (fun ri => RetryInfo.mk (ri.attempts + 1) now etype ri.bookmark_id)
            p hp0' with ⟨q, hq, hkey⟩
          rcases List.mem_append.mp hfb with hfb0 | hfb1
          · rw [hkey]
            exact hinv' q hq fb hfb0
          · have : fb = ⟨url, bid, maxA, etype, now⟩ := by simpa using hfb1
            rw [this]
            exact fun hcontra => hpne' hcontra.symm
        · rw [disjoint_iff]
          intro p hp fb hfb
          have hp' : p ∈ s.retries.map (fun q =>
              if q.1 = url then
                (q.1, (fun ri => RetryInfo.mk (ri.attempts + 1) now etype
                  ri.bookmark_id) q.2)
              else q) := hp
          rcases mem_map_update_key s.retries url
            (fun ri => RetryInfo.mk (ri.attempts + 1) now etype ri.bookmark_id)
            p hp' with ⟨q, hq, hkey⟩
          rw [hkey]
          exact hinv' q hq fb hfb
  · rw [disjoint_iff]
    intro p hp fb hfb
    exact hinv' p (List.mem_of_mem_filter hp) fb hfb
  · intro hnd
    rw [loadRun_save s now hnd]
    exact hinv

/-- C8 witness: the amended preservation at a concrete invariant-satisfying
state holding one retry record and one distinct permanent failure. -/
theorem c8_witness :
    retriesFailedDisjoint
      (record_error (State.mk none none [("a", ⟨1, "t", "network", 2⟩)]
        [⟨"f", 3, 3, "network", "t"⟩] ⟨0, 0⟩) "a" 2 "network" 3 "t1").2 = true
    ∧ retriesFailedDisjoint
        (record_success (State.mk none none [("a", ⟨1, "t", "network", 2⟩)]
          [⟨"f", 3, 3, "network", "t"⟩] ⟨0, 0⟩) "a") = true
    ∧ retriesFailedDisjoint
        (loadRun (.json (save (State.mk none none [("a", ⟨1, "t", "network", 2⟩)]
          [⟨"f", 3, 3, "network", "t"⟩] ⟨0, 0⟩) "t2").2) emptyState).2 = true :=
  ⟨(c8_invariant_amended (State.mk none none [("a", ⟨1, "t", "network", 2⟩)]
      [⟨"f", 3, 3, "network", "t"⟩] ⟨0, 0⟩) "a" "c" 2 "network" 3 "t1"
      (by decide)).1 (by decide),
   (c8_invariant_amended (State.mk none none [("a", ⟨1, "t", "network", 2⟩)]
      [⟨"f", 3, 3, "network", "t"⟩] ⟨0, 0⟩) "a" "c" 2 "network" 3 "t1"
      (by decide)).2.1,
   (c8_invariant_amended (State.mk none none [("a", ⟨1, "t", "network", 2⟩)]
      [⟨"f", 3, 3, "network", "t"⟩] ⟨0, 0⟩) "a" "c" 2 "network" 3 "t2"
      (by decide)).2.2.2.2.2 (by decide)⟩

end XFix
